import Mathlib

/-!
# Verification of the IngredientIQ ingredient-resolution pipeline

A shallow embedding, in Lean 4, of the core of the IngredientIQ repository
(`app/analyzer.py`, `app/scraper.py`, `app/models.py`), together with proofs
about the embedded operations.

Conventions used throughout the embedding:
* Python `str` values are Lean `String`s (character lists); Python string
  methods (`lower`, `strip`, `in`, `count`, slicing) are modelled by
  executable character-level functions defined below.
* Python `int` is `Int`; Python `float` is `Rat` (every float produced by this
  program is obtained from small integer arithmetic, where exact rational
  arithmetic agrees with IEEE double arithmetic on all the comparisons the
  program performs; the individual definitions note the spots where this is
  used).
* Network and database collaborators (`requests`, BeautifulSoup, chromadb,
  Gemini) are modelled at their call boundary by an explicit environment
  (`Env`) of functions returning `Except String _`, where `Except.error`
  stands for a raised exception.  A parsed HTML document is abstracted as a
  `Soup` record whose fields hold exactly the query results the scraper asks
  BeautifulSoup for.
* Python `try/except` blocks are modelled by matching on the `Except` value;
  code paths that cannot raise in the model (because all their collaborator
  calls are already handled) are total functions.
-/

set_option maxRecDepth 20000
set_option maxHeartbeats 1000000
set_option linter.unusedVariables false

/-! ## Generic string helpers (Python string primitives) -/

/-- Python `needle in haystack` on character lists: `pat` occurs as a
contiguous substring. -/
def listContainsSub (pat : List Char) : List Char → Bool
  | [] => pat.isEmpty
  | c :: rest => pat.isPrefixOf (c :: rest) || listContainsSub pat rest

/-- Python `pat in s` for strings. -/
def strContains (s pat : String) : Bool :=
  listContainsSub pat.data s.data

/-- Python `s.lower()` (ASCII case folding, which covers every string this
program manipulates). -/
def strLower (s : String) : String :=
  String.mk (s.data.map Char.toLower)

/-- Python `s.strip()` (both-ends whitespace strip). -/
def strTrim (s : String) : String :=
  String.mk (((s.data.dropWhile Char.isWhitespace).reverse.dropWhile Char.isWhitespace).reverse)

/-- Python `c in s` for a single character. -/
def strContainsChar (s : String) (c : Char) : Bool :=
  s.data.any (fun x => x = c)

/-- Python `s[:n]` (character slicing). -/
def strTake (s : String) (n : Nat) : String :=
  String.mk (s.data.take n)

/-- Python `s.split(c)` on a single-character separator (empty fragments are
kept, as in Python). -/
def splitCharAux (c : Char) : List Char → List Char → List (List Char)
  | [], acc => [acc.reverse]
  | x :: xs, acc =>
    if x = c then acc.reverse :: splitCharAux c xs [] else splitCharAux c xs (x :: acc)

def strSplitOn (s : String) (c : Char) : List String :=
  (splitCharAux c s.data []).map String.mk

/-- Python `s.count(c)` for a single character. -/
def countChar (s : String) (c : Char) : Nat :=
  (s.data.filter (fun x => x = c)).length

/-- Number of characters satisfying `str.isalnum` (ASCII). -/
def alnumCount (s : String) : Nat :=
  (s.data.filter Char.isAlphanum).length

/-- Number of characters satisfying `str.isalpha` (ASCII). -/
def alphaCount (s : String) : Nat :=
  (s.data.filter Char.isAlpha).length

/-- Case-insensitive "starts with" on character lists. -/
def ciIsPrefix : List Char → List Char → Bool
  | [], _ => true
  | _ :: _, [] => false
  | p :: ps, c :: cs => (p.toLower = c.toLower) && ciIsPrefix ps cs

/-- Collapse every maximal whitespace run to a single space; models
`re.sub(r'\s+', ' ', s)`.  Fuel-driven recursion (the fuel is the length of
the list, which bounds the number of steps). -/
def collapseWSAux : Nat → List Char → List Char
  | 0, cs => cs
  | _ + 1, [] => []
  | fuel + 1, c :: rest =>
    if c.isWhitespace then ' ' :: collapseWSAux fuel (rest.dropWhile Char.isWhitespace)
    else c :: collapseWSAux fuel rest

def collapseWS (cs : List Char) : List Char :=
  collapseWSAux cs.length cs

/-- `c` is a regex word character (`\w`, ASCII). -/
def isWordChar (c : Char) : Bool :=
  c.isAlphanum || c = '_'

/-- Maximal runs of word characters of a string, in order.  Regex word
boundaries (`\b`) are exactly the edges of these runs. -/
def wordRunsAux : Nat → List Char → List (List Char)
  | 0, _ => []
  | _ + 1, [] => []
  | fuel + 1, c :: rest =>
    if isWordChar c then
      ((c :: rest).takeWhile isWordChar) :: wordRunsAux fuel ((c :: rest).dropWhile isWordChar)
    else wordRunsAux fuel rest

def wordRuns (cs : List Char) : List (List Char) :=
  wordRunsAux cs.length cs

/-- First match of `re.findall(r'\b([0-5])\b', s)`: the first maximal word run
that is a single digit between 0 and 5. -/
def firstSingleDigit05 (s : String) : Option Int :=
  (wordRuns s.data).findSome? (fun run =>
    match run with
    | [c] => if '0' ≤ c ∧ c ≤ '5' then some ((c.toNat - '0'.toNat : Nat) : Int) else none
    | _ => none)

/-- Python `round(x * 10^scale)` rounding half to even, used by `round(x, n)`
and by `format(x, '.1f')`.  Computed on the integer numerator and denominator
of the exact rational: with `n = q.num * scale` and `d = q.den`, the floor of
`q * scale` is `n.fdiv d` and the fractional remainder compares to `1/2` as
`2 * (n - f * d)` compares to `d`.  On every value this program rounds, exact
rational rounding agrees with IEEE double rounding (the rounded quantities
are means of at most 20 small integers, whose distance from a tie point is
far larger than the float representation error). -/
def roundHalfEvenScaled (q : Rat) (scale : Nat) : Int :=
  let n := q.num * (scale : Int)
  let d := (q.den : Int)
  let f := n.fdiv d
  let twice_rem := 2 * (n - f * d)
  if twice_rem < d then f
  else if d < twice_rem then f + 1
  else if f % 2 = 0 then f else f + 1

/-- Python `round(x, 2)`, as the exact rational `round(x*100) / 100`. -/
def pythonRound2 (q : Rat) : Rat :=
  mkRat (roundHalfEvenScaled q 100) 100

/-- Python `f"{x:.1f}"`. -/
def formatOneDecimal (q : Rat) : String :=
  let n := roundHalfEvenScaled q 10
  toString (n / 10) ++ "." ++ toString (n % 10)

/-- Sum of a list of integers as a rational. -/
def ratSumInt (l : List Int) : Rat :=
  ((l.foldl (· + ·) 0 : Int) : Rat)

/-- Deduplicate keeping the first occurrence of each element.  Models
Python `list(set(xs))` at the one call site the analyzer uses it (the set
iteration order of CPython is unspecified; the claims under verification do
not depend on the order, only on the underlying set). -/
def dedupFirstSeen (l : List String) : List String :=
  l.foldl (fun acc x => if x ∈ acc then acc else acc ++ [x]) []

/-! ## `scraper.py`: pure rating conversions -/

/-- `IngredientScraper._get_risk_level_from_score` (scraper.py:618). -/
def get_risk_level_from_score (score : Int) : String :=
  if score ≤ 2 then "Safe"
  else if score ≤ 4 then "Medium"
  else "High"

/-- `IngredientScraper._convert_incidecoder_to_safety_score` (scraper.py:817).
The `fn` argument models the `function` parameter, which the source accepts
and never reads. -/
def convert_incidecoder_to_safety_score (irritancy comedogenicity : Int)
    (overall_rating fn : String) : Int :=
  let irritancy_score := irritancy * 2
  let comedogenicity_score := comedogenicity * 2
  let base_score := max irritancy_score comedogenicity_score
  let rating_lower := strLower overall_rating
  let base_score :=
    if strContains rating_lower "superstar" then max 0 (base_score - 2)
    else if strContains rating_lower "goodie" then max 0 (base_score - 1)
    else if strContains rating_lower "icky" then min 10 (base_score + 2)
    else base_score
  max 0 (min 10 base_score)

/-- `IngredientScraper._get_skin_types_from_ratings` (scraper.py:685).
Note the argument order of the source: comedogenicity first, irritancy
second. -/
def get_skin_types_from_ratings (comedogenicity irritancy : Int) : List String :=
  let skin_types : List String :=
    if comedogenicity ≥ 4 then ["dry"]
    else if comedogenicity ≥ 3 then ["normal", "dry"]
    else if comedogenicity ≥ 1 then ["normal", "combination"]
    else ["all"]
  let skin_types :=
    if irritancy ≥ 4 then
      let filtered := skin_types.filter (fun st => st ≠ "sensitive")
      if filtered = [] then ["normal"] else filtered
    else if irritancy ≥ 3 then
      let filtered := skin_types.filter (fun st => ¬ (st = "sensitive" ∨ st = "all"))
      if "all" ∈ filtered then ["normal", "oily", "combination"] else filtered
    else if irritancy = 0 ∧ comedogenicity = 0 then ["all", "sensitive"]
    else skin_types
  if skin_types = [] then ["normal"] else skin_types

/-- `IngredientScraper._get_risks_from_ratings` (scraper.py:648). -/
def get_risks_from_ratings (irritancy comedogenicity : Int) : String :=
  let risks : List String :=
    (if irritancy ≥ 4 then ["high risk of skin irritation"]
     else if irritancy ≥ 3 then ["moderate risk of skin irritation"]
     else if irritancy ≥ 1 then ["low risk of skin irritation"]
     else [])
    ++
    (if comedogenicity ≥ 4 then ["high risk of clogging pores and causing acne"]
     else if comedogenicity ≥ 3 then ["moderate risk of clogging pores"]
     else if comedogenicity ≥ 1 then ["slight pore-clogging potential"]
     else [])
  if risks ≠ [] then
    "INCIdecoder ratings indicate this ingredient " ++ String.intercalate " and " risks ++ "."
  else
    "INCIdecoder rates this ingredient as non-irritating and non-comedogenic."

/-- `IngredientScraper._check_known_allergens` (scraper.py:339); the dict is
iterated in insertion order (CPython 3.7+). -/
def check_known_allergens (ingredient_name : String) : List String :=
  let known_allergens : List (String × String) :=
    [("fragrance", "fragrance"), ("parfum", "fragrance"),
     ("formaldehyde", "formaldehyde"), ("parabens", "parabens"),
     ("sulfates", "sulfates"), ("alcohol denat", "drying alcohol")]
  known_allergens.foldl
    (fun allergens p =>
      if strContains (strLower ingredient_name) p.1 then allergens ++ [p.2] else allergens)
    []

/-- `IngredientScraper._get_allergens_from_ratings` (scraper.py:673); the
final `list(set(...))` is modelled by first-seen deduplication. -/
def get_allergens_from_ratings (irritancy : Int) (ingredient_name : String) : List String :=
  let allergens := if irritancy ≥ 3 then ["irritant"] else []
  let allergens := allergens ++ check_known_allergens ingredient_name
  dedupFirstSeen allergens

/-- `IngredientScraper._get_benefits_from_function` (scraper.py:627). -/
def get_benefits_from_function (fn : String) : String :=
  let function_lower := strLower fn
  if strContains function_lower "sunscreen" then "Provides UV protection and prevents sun damage"
  else if strContains function_lower "moisturizer" || strContains function_lower "humectant" then
    "Hydrates and moisturizes the skin"
  else if strContains function_lower "emollient" then "Softens and smooths skin texture"
  else if strContains function_lower "solvent" then
    "Helps dissolve other ingredients and improve texture"
  else if strContains function_lower "viscosity" then
    "Improves product texture and consistency"
  else if strContains function_lower "skin brightening" then
    "Helps brighten skin tone and reduce dark spots"
  else if strContains function_lower "anti-acne" then
    "Helps treat and prevent acne breakouts"
  else fn

/-- `IngredientScraper._get_cosmetic_benefits` (scraper.py:713). -/
def get_cosmetic_benefits (ingredient_name : String) : String :=
  let ingredient_lower := strLower ingredient_name
  if strContains ingredient_lower "water" || strContains ingredient_lower "aqua" then
    "Base ingredient that provides hydration and helps dissolve other ingredients"
  else if strContains ingredient_lower "glycerin" then
    "Powerful humectant that attracts moisture to the skin"
  else if strContains ingredient_lower "acid" then "May help with exfoliation and skin renewal"
  else if strContains ingredient_lower "oil" then
    "Provides moisturization and may help strengthen skin barrier"
  else if strContains ingredient_lower "extract" then
    "Plant-derived ingredient that may provide antioxidant benefits"
  else "Cosmetic ingredient with specific formulation purposes"

/-- `IngredientScraper._get_fallback_safety_score` (scraper.py:266). -/
def get_fallback_safety_score (ingredient_name : String) : Int :=
  let l := strLower ingredient_name
  if ["water", "aqua"].any (fun s => strContains l s) then 0
  else if ["glycerin", "hyaluronic", "sodium hyaluronate", "ceramide"].any
      (fun s => strContains l s) then 1
  else if ["squalane", "panthenol", "allantoin", "betaine"].any (fun s => strContains l s) then 1
  else if ["niacinamide", "vitamin e", "tocopherol"].any (fun s => strContains l s) then 2
  else if ["salicylic acid", "lactic acid", "glycolic acid"].any (fun s => strContains l s) then 3
  else if strContains l "oil" || strContains l "extract" then
    if ["chamomile", "aloe", "green tea"].any (fun s => strContains l s) then 3 else 4
  else if ["retinol", "retinyl", "retinoic", "tretinoin"].any (fun s => strContains l s) then
    if strContains l "palmitate" then 4 else 5
  else if ["phenoxyethanol", "benzyl alcohol", "potassium sorbate"].any
      (fun s => strContains l s) then 3
  else if ["parabens", "methylparaben", "propylparaben"].any (fun s => strContains l s) then 4
  else if ["fragrance", "parfum", "alcohol denat", "denatured alcohol"].any
      (fun s => strContains l s) then 7
  else if ["formaldehyde", "dmdm hydantoin", "quaternium-15"].any (fun s => strContains l s) then 8
  else if ["benzoyl peroxide", "hydrogen peroxide"].any (fun s => strContains l s) then 6
  else 3

/-! ## `scraper.py`: the ingredient-data dictionaries -/

/-- The safety-data dictionary produced by the scraper's resolution tiers
(`_extract_incidecoder_safety_data`, `_get_fallback_safety_score_dict`,
`get_ingredient_data_from_cache`).  The four `Option` fields model the keys
("irritancy", "comedogenicity", "overall_rating", "source") that the
keyword-fallback dictionary does not carry. -/
structure IngredientDict where
  safety_score : Int
  risk_level : String
  function : String
  benefits : String
  risks : String
  allergens : List String
  skin_types : List String
  irritancy : Option Int
  comedogenicity : Option Int
  overall_rating : Option String
  source : Option String
deriving Repr, DecidableEq

/-- `IngredientScraper._get_fallback_safety_score_dict` (scraper.py:519). -/
def get_fallback_safety_score_dict (ingredient_name : String) : IngredientDict :=
  let safety_score := get_fallback_safety_score ingredient_name
  let (risk_level, risks, skin_types) :=
    if safety_score ≤ 2 then
      ("Safe", "Generally well-tolerated", ["all", "sensitive"])
    else if safety_score ≤ 4 then
      ("Medium", "May not suit all skin types", ["normal", "oily"])
    else
      ("High", "High risk - patch test recommended", ["normal"])
  { safety_score := safety_score
    risk_level := risk_level
    function := "Cosmetic ingredient"
    benefits := get_cosmetic_benefits ingredient_name
    risks := risks
    allergens := check_known_allergens ingredient_name
    skin_types := skin_types
    irritancy := none
    comedogenicity := none
    overall_rating := none
    source := none }

/-- One entry of the scraper's per-session `ingredient_ratings_cache`
(populated from an INCIdecoder product table; in the code under `src/` the
attribute is only ever read or deleted, never assigned, so this models the
shape the readers expect). -/
structure CacheEntry where
  safety_score : Int
  irritancy : Int
  comedogenicity : Int
  overall_rating : String
  function : String
  source : Option String
deriving Repr, DecidableEq

/-- The dictionary `IngredientScraper.get_ingredient_data_from_cache`
(scraper.py:595) builds from a cache entry on a hit. -/
def cache_entry_to_dict (ingredient_name : String) (e : CacheEntry) : IngredientDict :=
  { safety_score := e.safety_score
    risk_level := get_risk_level_from_score e.safety_score
    function := e.function
    benefits := get_benefits_from_function e.function
    risks := get_risks_from_ratings e.irritancy e.comedogenicity
    allergens := get_allergens_from_ratings e.irritancy ingredient_name
    skin_types := get_skin_types_from_ratings e.comedogenicity e.irritancy
    irritancy := some e.irritancy
    comedogenicity := some e.comedogenicity
    overall_rating := some e.overall_rating
    source := some (e.source.getD "INCIdecoder_table") }

/-- `IngredientScraper.get_ingredient_data_from_cache` (scraper.py:595); the
session cache is passed explicitly (`none` entries model an absent
`ingredient_ratings_cache` attribute or a missing key). -/
def get_ingredient_data_from_cache (cache : List (String × CacheEntry))
    (ingredient_name : String) : Option IngredientDict :=
  match cache.find? (fun p => p.1 = ingredient_name) with
  | some p => some (cache_entry_to_dict ingredient_name p.2)
  | none => none

/-! ## `scraper.py`: parsed-document abstraction and table extraction -/

/-- A parsed HTML document, abstracted as the results of the BeautifulSoup
queries the scraper performs on it:
* `product_links` — `href`s of `soup.find_all('a', href=re.compile(r'/products/'))`;
* `ingredient_links` — `href`s of `soup.find_all('a', href=re.compile(r'/ingredient'))`;
* `container_link_texts` — texts of `/ingredients/` links inside
  ingredient/inci/formula containers (extraction method 1);
* `global_link_texts` — texts of all `/ingredients/` links (method 2);
* `list_items` — for each `ul`/`ol` element, the texts of its `li` items
  (method 3);
* `text_blocks` — texts of `p`/`div` blocks whose string matches
  `aqua|water.*,.*` (method 4);
* `function_texts` — texts of function/type/category elements;
* `description_texts` — texts of description/benefit/what-it-does elements;
* `page_text` — `soup.get_text()`;
* `tables` — for each `table`, for each `tr` row, the texts of its cells. -/
structure Soup where
  product_links : List String
  ingredient_links : List String
  container_link_texts : List String
  global_link_texts : List String
  list_items : List (List String)
  text_blocks : List String
  function_texts : List String
  description_texts : List String
  page_text : String
  tables : List (List (List String))
deriving Repr

/-- The ratings dictionary built by
`IngredientScraper._extract_incidecoder_ratings_from_table` (scraper.py:843);
`none` fields model absent keys. -/
structure TableRatings where
  irritancy : Option Int
  comedogenicity : Option Int
  overall_rating : Option String
deriving Repr, DecidableEq

def TableRatings.isEmpty (r : TableRatings) : Bool :=
  r.irritancy.isNone && r.comedogenicity.isNone && r.overall_rating.isNone

/-- `IngredientScraper._extract_incidecoder_ratings_from_table`
(scraper.py:843): scan the rows of one table for irritancy / comedogenicity /
overall-rating cells. -/
def extract_incidecoder_ratings_from_table (table : List (List String)) : TableRatings :=
  table.foldl
    (fun r cells =>
      match cells with
      | header :: value :: _ =>
        let h := strTrim (strLower header)
        let v := strTrim value
        if strContains h "irritan" || strContains h "irrit" then
          match firstSingleDigit05 v with
          | some d => { r with irritancy := some d }
          | none => r
        else if strContains h "comedogenic" || strContains h "acne" || strContains h "pore" then
          match firstSingleDigit05 v with
          | some d => { r with comedogenicity := some d }
          | none => r
        else if strContains h "rating" || strContains h "overall" || strContains h "assessment" then
          if strContains (strLower v) "goodie" || strContains (strLower v) "superstar"
              || strContains (strLower v) "icky" then
            { r with overall_rating := some v }
          else r
        else r
      | _ => r)
    ⟨none, none, none⟩

/-- The `for table in tables: ... break` loop of
`_extract_incidecoder_safety_data` (scraper.py:448): the first table whose
extracted ratings dictionary is non-empty. -/
def first_table_ratings : List (List (List String)) → Option TableRatings
  | [] => none
  | t :: ts =>
    let r := extract_incidecoder_ratings_from_table t
    if r.isEmpty then first_table_ratings ts else some r

/-- `re.search(r'comedogenic[^0-9]*([0-5])', page_text)` (scraper.py:468):
after an occurrence of "comedogenic", skip non-digits; the match succeeds if
the first digit found is at most 5, otherwise the scan resumes one character
further.  Fuel-driven left-to-right scan. -/
def findComedogenicDigitAux : Nat → List Char → Option Int
  | 0, _ => none
  | _ + 1, [] => none
  | fuel + 1, c :: rest =>
    if ("comedogenic".data).isPrefixOf (c :: rest) then
      let after := (c :: rest).drop 11
      match after.dropWhile (fun ch => ¬ ch.isDigit) with
      | d :: _ =>
        if d ≤ '5' then some ((d.toNat - '0'.toNat : Nat) : Int)
        else findComedogenicDigitAux fuel rest
      | [] => findComedogenicDigitAux fuel rest
    else findComedogenicDigitAux fuel rest

def findComedogenicDigit (s : String) : Option Int :=
  findComedogenicDigitAux s.data.length s.data

/-! ## `scraper.py`: the ingredient-page resolution tier -/

/-- The ordered risk-indicator lexicon of `_extract_incidecoder_safety_data`
(scraper.py:418), in dict insertion order. -/
def risk_indicators : List (String × Int) :=
  [("irritant", 2), ("sensitizer", 2), ("allergen", 3), ("comedogenic", 2),
   ("fragrance", 3), ("alcohol", 2), ("preservative", 1),
   ("safe", -1), ("gentle", -1), ("natural", -1)]

/-- `IngredientScraper._extract_incidecoder_safety_data` (scraper.py:385),
on the no-internal-exception path (all the BeautifulSoup accesses it performs
are total on the `Soup` abstraction).  The `ingredient_name` parameter is
accepted and never read, as in the source. -/
def extract_incidecoder_safety_data (soup : Soup) (ingredient_name : String) : IngredientDict :=
  -- defaults (scraper.py:387)
  let function0 := "Unknown"
  let benefits0 := "No data available"
  -- function/type/category element (scraper.py:399)
  let function1 :=
    match (soup.function_texts.map strTrim).find? (fun t => t ≠ "" ∧ t.length < 100) with
    | some t => t
    | none => function0
  -- description/benefit element, truncated to 300 characters (scraper.py:407)
  let benefits1 :=
    match (soup.description_texts.map strTrim).find? (fun t => t ≠ "" ∧ 20 < t.length) with
    | some t => strTake t 300
    | none => benefits0
  let page_text := strLower soup.page_text
  -- risk-indicator pass (scraper.py:418): collect adjustments and the
  -- irritant/sensitizer/allergen names present in the page text
  let scan :=
    risk_indicators.foldl
      (fun (acc : List Int × List String) p =>
        if strContains page_text p.1 then
          (acc.1 ++ [p.2],
           if p.1 ∈ ["irritant", "sensitizer", "allergen"] then acc.2 ++ [p.1] else acc.2)
        else acc)
      ([], [])
  let risk_adjustments := scan.1
  let allergens := scan.2
  -- averaged keyword score (scraper.py:439):
  -- `int(max(0, min(10, 3 + sum/len)))` — `int()` of the non-negative
  -- clamped float is its floor, and the floor commutes with the integer
  -- bounds 0 and 10, so this equals `max 0 (min 10 (3 + (sum).fdiv len))`
  let safety_score1 : Int :=
    if risk_adjustments ≠ [] then
      max 0 (min 10 (3 + (risk_adjustments.foldl (· + ·) 0).fdiv (risk_adjustments.length : Int)))
    else 3
  -- structured table ratings (scraper.py:444)
  let tr := first_table_ratings soup.tables
  let incidecoder_irritancy : Int := match tr with | some r => r.irritancy.getD 0 | none => 0
  let incidecoder_comedogenicity : Int := match tr with | some r => r.comedogenicity.getD 0 | none => 0
  let incidecoder_overall : String := match tr with | some r => r.overall_rating.getD "Unknown" | none => "Unknown"
  let ratings_found :=
    incidecoder_irritancy > 0 ∨ incidecoder_comedogenicity > 0 ∨ incidecoder_overall ≠ "Unknown"
  let safety_score2 : Int :=
    if ratings_found then
      convert_incidecoder_to_safety_score incidecoder_irritancy incidecoder_comedogenicity
        incidecoder_overall function1
    else safety_score1
  -- prose comedogenic rating (scraper.py:468); `int(score + d * 0.5)` of the
  -- non-negative integer score and digit `d` is `score + d.fdiv 2`
  let safety_score3 : Int :=
    match findComedogenicDigit page_text with
    | some d => safety_score2 + d.fdiv 2
    | none => safety_score2
  -- skin-type recommendations from page text (scraper.py:474)
  let skin_types :=
    if strContains page_text "sensitive" ∧ strContains page_text "good" then ["all", "sensitive"]
    else if strContains page_text "oily" ∨ strContains page_text "acne" then ["oily", "combination"]
    else if strContains page_text "dry" then ["dry", "normal"]
    else ["normal"]
  -- final score and risk level (scraper.py:481)
  let final_score := safety_score3
  let risk_level :=
    if final_score ≤ 2 then "Safe"
    else if final_score ≤ 4 then "Medium"
    else "High"
  -- risks summary (scraper.py:501)
  let risks :=
    if allergens ≠ [] then
      "May cause " ++ String.intercalate ", " allergens ++ ". Patch test recommended."
    else if final_score ≥ 6 then "High risk ingredient. Use with caution."
    else if final_score ≥ 4 then "Moderate risk. May not suit all skin types."
    else "Generally well-tolerated ingredient."
  { safety_score := final_score
    risk_level := risk_level
    function := function1
    benefits := benefits1
    risks := risks
    allergens := allergens
    skin_types := skin_types
    irritancy := some incidecoder_irritancy
    comedogenicity := some incidecoder_comedogenicity
    overall_rating := some incidecoder_overall
    source := some (if ratings_found then "INCIdecoder_ratings" else "text_analysis") }

/-! ## `scraper.py`: name cleaning and the scraped-cell name validator -/

/-- Strip a leading `word` followed by at least one whitespace character
(one alternative of `re.sub(r'^(and\s+|or\s+|also\s+)', '', s, flags=re.I)`).
-/
def stripLeadWord (w : String) (cs : List Char) : Option (List Char) :=
  if ciIsPrefix w.data cs then
    match cs.drop w.length with
    | c :: rest => if c.isWhitespace then some ((c :: rest).dropWhile Char.isWhitespace) else none
    | [] => none
  else none

def remove_leading_conjunction (s : String) : String :=
  match stripLeadWord "and" s.data with
  | some r => String.mk r
  | none =>
    match stripLeadWord "or" s.data with
    | some r => String.mk r
    | none =>
      match stripLeadWord "also" s.data with
      | some r => String.mk r
      | none => s

/-- Strip a trailing whitespace run followed by `word`
(one alternative of `re.sub(r'(\s+and|\s+or)$', '', s, flags=re.I)`),
working on the reversed character list. -/
def stripTrailWordRev (wrev : List Char) (rcs : List Char) : Option (List Char) :=
  if ciIsPrefix wrev rcs then
    match rcs.drop wrev.length with
    | c :: rest => if c.isWhitespace then some ((c :: rest).dropWhile Char.isWhitespace) else none
    | [] => none
  else none

def remove_trailing_conjunction (s : String) : String :=
  let rcs := s.data.reverse
  match stripTrailWordRev ['d', 'n', 'a'] rcs with
  | some r => String.mk r.reverse
  | none =>
    match stripTrailWordRev ['r', 'o'] rcs with
    | some r => String.mk r.reverse
    | none => s

/-- `re.search(r'\(([^)]+)\)', s)`: content of the first parenthesised group
with a non-empty body.  Fuel-driven left-to-right scan. -/
def firstParenContentAux : Nat → List Char → Option (List Char)
  | 0, _ => none
  | _ + 1, [] => none
  | fuel + 1, c :: rest =>
    if c = '(' then
      let content := rest.takeWhile (fun ch => ¬ ch = ')')
      match rest.drop content.length, content with
      | ')' :: _, _ :: _ => some content
      | _, _ => firstParenContentAux fuel rest
    else firstParenContentAux fuel rest

def firstParenContent (s : String) : Option (List Char) :=
  firstParenContentAux s.data.length s.data

/-- `re.sub(r'\([^)]+\)', '', s)`: delete every parenthesised group with a
non-empty body. -/
def removeParenGroupsAux : Nat → List Char → List Char
  | 0, cs => cs
  | _ + 1, [] => []
  | fuel + 1, c :: rest =>
    if c = '(' then
      let content := rest.takeWhile (fun ch => ¬ ch = ')')
      match rest.drop content.length, content with
      | ')' :: after, _ :: _ => removeParenGroupsAux fuel after
      | _, _ => c :: removeParenGroupsAux fuel rest
    else c :: removeParenGroupsAux fuel rest

/-- `IngredientScraper._clean_ingredient_name` (scraper.py:174). -/
def clean_ingredient_name (ingredient_name : String) : String :=
  if ingredient_name = "" then ""
  else
    let cleaned := String.mk (collapseWS (strTrim ingredient_name).data)
    let cleaned := remove_leading_conjunction cleaned
    let cleaned := remove_trailing_conjunction cleaned
    if strContainsChar cleaned '(' && strContainsChar cleaned ')' then
      match firstParenContent cleaned with
      | some content =>
        if 30 < content.length then strTrim (String.mk (removeParenGroupsAux cleaned.data.length cleaned.data))
        else cleaned
      | none => cleaned
    else cleaned

/-- The invalid-phrase list of `_is_valid_ingredient_name` (scraper.py:206). -/
def scraper_invalid_phrases : List String :=
  ["click here", "read more", "learn more", "see full", "view all",
   "ingredients list", "full ingredients", "complete list", "product details",
   "how to use", "directions", "warnings", "precautions", "storage",
   "made in", "manufactured", "distributed by", "net weight", "volume",
   "expiry date", "best before", "use by", "batch number", "lot number"]

def scraper_common_words : List String :=
  ["the", "and", "or", "but", "in", "on", "at", "to", "for", "of", "with", "by"]

/-- The chemical-morphology patterns of `_is_valid_ingredient_name`
(scraper.py:234), decided over maximal word runs of the lowercased name:
a run ending in the given suffix preceded by a lowercase letter models
`[a-z]+SUF\b`, a run ending in the given word models `WORD\b`, and an
all-digit run models `\b\d+\b`. -/
def chemicalPatternMatch (lower : String) : Bool :=
  let runs := wordRuns lower.data
  let suffixMatch (suf : List Char) : Bool :=
    runs.any (fun run =>
      suf.isSuffixOf run && decide (suf.length < run.length) &&
        (match run.reverse.drop suf.length with
         | c :: _ => decide ('a' ≤ c ∧ c ≤ 'z')
         | [] => false))
  let wordEndMatch (w : List Char) : Bool :=
    runs.any (fun run => w.isSuffixOf run)
  suffixMatch ['y', 'l'] || suffixMatch ['a', 't', 'e'] || suffixMatch ['i', 'n', 'e']
    || suffixMatch ['o', 'l'] || wordEndMatch "acid".data || wordEndMatch "sodium".data
    || wordEndMatch "potassium".data
    || runs.any (fun run => !run.isEmpty && run.all Char.isDigit)

def scraper_common_ingredients : List String :=
  ["aqua", "water", "glycerin", "dimethicone", "cyclopentasiloxane",
   "phenoxyethanol", "tocopherol", "retinol", "niacinamide", "ceramide"]

/-- `IngredientScraper._is_valid_ingredient_name` (scraper.py:194).  The
`alpha_count < len(s) * 0.5` float comparison is exact (`0.5` is a dyadic
rational), hence modelled as `2 * alphaCount < length`.  Note that the two
final acceptance heuristics (chemical morphology, common-ingredient
allow-list) cannot change the result, because the function ends in
`return True`. -/
def is_valid_ingredient_name (ingredient_name : String) : Bool :=
  if ingredient_name = "" ∨ ingredient_name.length < 3 then false
  else
    let ingredient_lower := strTrim (strLower ingredient_name)
    if 70 < ingredient_name.length then false
    else if scraper_invalid_phrases.any (fun p => strContains ingredient_lower p) then false
    else if 2 < (scraper_common_words.filter
        (fun w => strContains (" " ++ ingredient_lower ++ " ") (" " ++ w ++ " "))).length then false
    else if ¬ ingredient_name.data.any Char.isAlpha then false
    else if 2 * alphaCount ingredient_name < ingredient_name.length then false
    else if chemicalPatternMatch ingredient_lower then true
    else if scraper_common_ingredients.any (fun c => strContains ingredient_lower c) then true
    else true

/-! ## `scraper.py`: free-text ingredient parsing -/

/-- Strip one match of `ingredients?:?\s*` (case-insensitive) at the head of
the list, if any. -/
def stripIngredientAt (cs : List Char) : Option (List Char) :=
  if ciIsPrefix "ingredient".data cs then
    let r1 := cs.drop 10
    let r2 :=
      match r1 with
      | c :: t => if c.toLower = 's' then t else r1
      | [] => r1
    let r3 :=
      match r2 with
      | c :: t => if c = ':' then t else r2
      | [] => r2
    some (r3.dropWhile Char.isWhitespace)
  else none

/-- `re.sub(r'ingredients?:?\s*', '', text, flags=re.I)`: left-to-right,
non-overlapping removal.  Fuel-driven (every step consumes at least one
character). -/
def subIngredientWordAux : Nat → List Char → List Char
  | 0, cs => cs
  | _ + 1, [] => []
  | fuel + 1, c :: rest =>
    match stripIngredientAt (c :: rest) with
    | some r => subIngredientWordAux fuel r
    | none => c :: subIngredientWordAux fuel rest

/-- `IngredientScraper._parse_ingredient_text_improved` (scraper.py:146). -/
def parse_ingredient_text_improved (text : String) : List String :=
  if text = "" ∨ text.length < 20 then []
  else
    let text := String.mk (subIngredientWordAux text.data.length text.data)
    let text := String.mk (collapseWS text.data)
    -- first delimiter among ',', ';', '\n' present in the text wins
    let potential_ingredients :=
      if strContainsChar text ',' then (strSplitOn text ',').map strTrim
      else if strContainsChar text ';' then (strSplitOn text ';').map strTrim
      else if strContainsChar text '\n' then (strSplitOn text '\n').map strTrim
      else []
    if potential_ingredients = [] then []
    else
      let filtered :=
        potential_ingredients.foldl
          (fun acc ing =>
            let cleaned := clean_ingredient_name ing
            if is_valid_ingredient_name cleaned then acc ++ [cleaned] else acc)
          []
      filtered.take 15

/-! ## `analyzer.py`: the orchestrator-level name validator -/

/-- The scraping-artifact phrases of `SkincareAnalyzer._is_valid_ingredient`
(analyzer.py:213). -/
def analyzer_invalid_patterns : List String :=
  ["click here", "know more", "read more", "see more", "view all", "show more",
   "expand", "collapse", "full list", "ingredients:", "http", "www.", ".com",
   "in this case", "such as", "if this sentence", "another peptide", "for example",
   "as mentioned", "see above", "note that", "please note", "important",
   "disclaimer", "warning", "caution", "may contain", "does not contain",
   "free from", "without", "includes", "contains", "made with", "formulated with"]

/-- The sentence-indicator tokens of `_is_valid_ingredient` (analyzer.py:228). -/
def sentence_indicators : List String :=
  [" is ", " are ", " was ", " were ", " the ", " and ", " or ", " but ",
   " if ", " when ", " where ", " what ", " how ", " why ", " because ",
   " since ", " although ", " however ", " therefore ", " moreover "]

def analyzer_invalid_starts : List String :=
  ["and ", "or ", "but ", "if ", "when ", "the ", "a ", "an "]

def analyzer_invalid_ends : List String :=
  [" and", " or", " but", " if", " when", " the", " is", " are"]

/-- The final shape regex of `_is_valid_ingredient` (analyzer.py:268):
`^[a-zA-Z][a-zA-Z0-9\s\-\(\)\.]*[a-zA-Z0-9\)]$`. -/
def shapeMatch (s : String) : Bool :=
  let midClass (c : Char) : Bool :=
    c.isAlphanum || c.isWhitespace || c = '-' || c = '(' || c = ')' || c = '.'
  let lastClass (c : Char) : Bool := c.isAlphanum || c = ')'
  match s.data with
  | [] => false
  | c :: rest =>
    match rest.getLast? with
    | none => false
    | some last => c.isAlpha && rest.dropLast.all midClass && lastClass last

/-- `SkincareAnalyzer._is_valid_ingredient` (analyzer.py:205).  The
`alphanumeric_chars < len(s) * 0.4` float comparison agrees with the exact
rational comparison for every length up to 80 (the products `n * float(0.4)`
round to a value on the same side of each integer as `2n/5`), hence is
modelled as `5 * alnumCount < 2 * length`. -/
def is_valid_ingredient (ingredient_name : String) : Bool :=
  if ingredient_name = "" then false
  else
    let ingredient_lower := strTrim (strLower ingredient_name)
    if analyzer_invalid_patterns.any (fun p => strContains ingredient_lower p) then false
    else if sentence_indicators.any (fun p => strContains ingredient_lower p) then false
    else if ingredient_name.length < 3 ∨ 80 < ingredient_name.length then false
    else if ¬ countChar ingredient_name '(' = countChar ingredient_name ')' then false
    else if ¬ countChar ingredient_name '[' = countChar ingredient_name ']' then false
    else if 5 * alnumCount ingredient_name < 2 * ingredient_name.length then false
    else if analyzer_invalid_starts.any (fun p => p.data.isPrefixOf ingredient_lower.data) then false
    else if analyzer_invalid_ends.any (fun p => p.data.isSuffixOf ingredient_lower.data) then false
    else shapeMatch ingredient_name

/-! ## `scraper.py`: the extraction chain over a product page -/

/-- The accumulation step shared by the four extraction methods of
`_extract_from_product_page`: keep a candidate if the scraped-cell validator
accepts it and it was not collected before (scraper.py:76). -/
def dedup_step (acc : List String) (n : String) : List String :=
  if is_valid_ingredient_name n ∧ n ∉ acc then acc ++ [n] else acc

/-- Harvest link/item texts: strip, clean, validate, deduplicate
(scraper.py:74). -/
def add_link_candidates (acc : List String) (texts : List String) : List String :=
  texts.foldl (fun acc t => dedup_step acc (clean_ingredient_name (strTrim t))) acc

/-- Method 1 of `_extract_from_product_page` (scraper.py:70): ingredient
links inside ingredient/inci/formula containers. -/
def phase1 (soup : Soup) : List String :=
  add_link_candidates [] soup.container_link_texts

/-- Methods 1–2 (scraper.py:80): the global ingredient-link scan runs only if
fewer than 3 candidates were found. -/
def phase2 (soup : Soup) : List String :=
  if (phase1 soup).length < 3 then add_link_candidates (phase1 soup) soup.global_link_texts
  else phase1 soup

/-- Methods 1–3 (scraper.py:88): lists with more than 3 items. -/
def phase3 (soup : Soup) : List String :=
  if (phase2 soup).length < 3 then
    soup.list_items.foldl
      (fun acc items => if 3 < items.length then add_link_candidates acc items else acc)
      (phase2 soup)
  else phase2 soup

/-- Methods 1–4 (scraper.py:100): comma-separated free-text blocks, parsed by
`_parse_ingredient_text_improved`. -/
def collectIngredients (soup : Soup) : List String :=
  if (phase3 soup).length < 3 then
    soup.text_blocks.foldl
      (fun acc block =>
        let text := strTrim block
        if 50 < text.length ∧ strContainsChar text ',' then
          (parse_ingredient_text_improved text).foldl dedup_step acc
        else acc)
      (phase3 soup)
  else phase3 soup

/-- The tail of `_extract_from_product_page` (scraper.py:110): more than 2
candidates are capped at 20 and returned; otherwise the collected partial
result is discarded and the empty list is returned. -/
def extract_from_soup (soup : Soup) : List String :=
  let ingredients := collectIngredients soup
  if 2 < ingredients.length then ingredients.take 20 else []

/-! ## The collaborator environment -/

/-- Result of `requests.get`: an HTTP status code and the parsed document. -/
structure FetchResponse where
  status : Nat
  soup : Soup

/-- The product record the external cache returns on a hit; only the
`ingredients` key is read by `analyze_product`. -/
structure CachedProduct where
  ingredients : List String
deriving Repr, DecidableEq

/-- The external collaborators of one request, at their call boundary.
`Except.error` models a raised exception. -/
structure Env where
  /-- `requests.get(url, ...)` (the transport + parser collaborator). -/
  fetch : String → Except String FetchResponse
  /-- `ProductDatabase.get_product` (returns `none` when absent). -/
  db_get : String → Except String (Option CachedProduct)
  /-- `GeminiClient.generate_product_summary(product_name, ingredients, score)`. -/
  gemini_summary : String → List String → Rat → Except String String
  /-- `GeminiClient.suggest_alternatives`, keyed by the product name of the
  preliminary analysis it receives. -/
  gemini_alternatives : String → Except String (List String)
  /-- `ProductDatabase.find_alternatives(safety_threshold, exclude_product)`. -/
  db_find_alternatives : Rat → String → Except String (List String)

/-- `https://incidecoder.com/search?query=...` (scraper.py:30). -/
def search_url (product_name : String) : String :=
  "https://incidecoder.com/search?query="
    ++ String.mk (product_name.data.map (fun c => if c = ' ' then '+' else c))

/-- The ingredient-page URL of `scrape_incidecoder_ingredient_safety`
(scraper.py:361): lower-case, spaces to dashes, parentheses removed. -/
def ingredient_url (ingredient_name : String) : String :=
  "https://incidecoder.com/ingredients/"
    ++ String.mk ((((strLower ingredient_name).data.map
          (fun c => if c = ' ' then '-' else c)).filter (fun c => ¬ (c = '(' ∨ c = ')'))))

/-- `IngredientScraper._extract_from_product_page` (scraper.py:57): any
transport error or non-200 status yields the empty list. -/
def extract_from_product_page (env : Env) (product_url : String) : List String :=
  match env.fetch product_url with
  | .error _ => []
  | .ok r => if r.status = 200 then extract_from_soup r.soup else []

/-- The `for link in product_links[:3]` loop of `_scrape_incidecoder`
(scraper.py:45): first non-empty page extraction wins. -/
def firstNonemptyResult : List (List String) → List String
  | [] => []
  | l :: ls => if l = [] then firstNonemptyResult ls else l

/-- `IngredientScraper._scrape_incidecoder` (scraper.py:26). -/
def scrape_incidecoder (env : Env) (product_name : String) : List String :=
  match env.fetch (search_url product_name) with
  | .error _ => []
  | .ok r =>
    if r.status = 200 then
      let product_links :=
        if r.soup.product_links = [] then r.soup.ingredient_links else r.soup.product_links
      firstNonemptyResult ((product_links.take 3).map
        (fun href => extract_from_product_page env ("https://incidecoder.com" ++ href)))
    else []

/-- `IngredientScraper.extract_ingredients_from_product` (scraper.py:13):
`_scrape_incidecoder` already absorbs its own failures, so this is the same
list (an internal exception or an empty result both end in `return []`). -/
def extract_ingredients_from_product (env : Env) (product_name : String) : List String :=
  scrape_incidecoder env product_name

/-- `IngredientScraper.scrape_incidecoder_ingredient_safety` (scraper.py:357):
transport error or non-200 falls back to the keyword classification. -/
def scrape_incidecoder_ingredient_safety (env : Env) (ingredient_name : String) : IngredientDict :=
  match env.fetch (ingredient_url ingredient_name) with
  | .error _ => get_fallback_safety_score_dict ingredient_name
  | .ok r =>
    if r.status = 200 then extract_incidecoder_safety_data r.soup ingredient_name
    else get_fallback_safety_score_dict ingredient_name

/-- `IngredientScraper.get_comprehensive_ingredient_data` (scraper.py:557).
The `abs(score - 3) > 0.1` float test on the integer-valued score holds
exactly when the score differs from 3. -/
def get_comprehensive_ingredient_data (env : Env) (cache : List (String × CacheEntry))
    (ingredient_name : String) : IngredientDict :=
  match get_ingredient_data_from_cache cache ingredient_name with
  | some cached => cached
  | none =>
    let incidecoder_data := scrape_incidecoder_ingredient_safety env ingredient_name
    let has_meaningful_data :=
      incidecoder_data.function ≠ "Unknown" ∨
      incidecoder_data.benefits ≠ "No data available" ∨
      0 < incidecoder_data.allergens.length ∨
      incidecoder_data.safety_score ≠ 3
    if has_meaningful_data then incidecoder_data
    else get_fallback_safety_score_dict ingredient_name

/-! ## `models.py` and `analyzer.py`: the resolution cascade -/

/-- `models.Ingredient`. -/
structure Ingredient where
  name : String
  safety_score : Int
  risk_level : String
  allergens : List String
  benefits : String
  risks : String
  skin_types : List String
deriving Repr, DecidableEq

/-- `models.ProductAnalysis` (`alternatives` entries are loosely-structured
suggestion records, abstracted as opaque strings). -/
structure ProductAnalysis where
  product_name : String
  ingredients_analysis : List Ingredient
  overall_safety_score : Rat
  risk_summary : String
  allergen_warnings : List String
  alternatives : List String
deriving Repr, DecidableEq

/-- `SkincareAnalyzer._create_fallback_analysis` (analyzer.py:194). -/
def create_fallback_analysis (product_name error_message : String) : ProductAnalysis :=
  { product_name := product_name
    ingredients_analysis := []
    overall_safety_score := 5
    risk_summary := "Unable to complete analysis: " ++ error_message
    allergen_warnings := []
    alternatives := [] }

/-- The `Ingredient(...)` construction of `analyze_product` (analyzer.py:92),
after `ingredient_data["name"] = ingredient_name`. -/
def mk_ingredient (ingredient_name : String) (d : IngredientDict) : Ingredient :=
  { name := ingredient_name
    safety_score := d.safety_score
    risk_level := d.risk_level
    allergens := d.allergens
    benefits := d.benefits
    risks := d.risks
    skin_types := d.skin_types }

/-- The per-ingredient loop and aggregation of `analyze_product`
(analyzer.py:82–188), entered with a non-empty validated ingredient list.
The scraper's session rating cache is passed as `[]`: in the code under
`src/` the `ingredient_ratings_cache` attribute is never assigned (it is
deleted on a cache hit and absent otherwise).  Every per-ingredient
resolution is total in the model, so the `continue`-on-exception and the
`if not ingredient_data` skip never fire, exactly as in the source where
`get_comprehensive_ingredient_data` catches its own collaborator errors and
always returns a non-empty dict. -/
def analyze_valid_ingredients (env : Env) (product_name : String)
    (valid_ingredients : List String) : ProductAnalysis :=
  let results := valid_ingredients.map
    (fun ing => (ing, get_comprehensive_ingredient_data env [] ing))
  let ingredients_analysis := results.map (fun r => mk_ingredient r.1 r.2)
  let safety_scores := results.map (fun r => r.2.safety_score)
  let allergen_warnings :=
    results.foldl (fun acc r => if r.2.allergens ≠ [] then acc ++ r.2.allergens else acc) []
  if ingredients_analysis = [] then
    create_fallback_analysis product_name "Unable to analyze any ingredients successfully"
  else
    -- `statistics.mean` of a list of ints is the exact fraction sum/len
    let overall_safety : Rat :=
      if safety_scores ≠ [] then mkRat (safety_scores.foldl (· + ·) 0) safety_scores.length
      else 5
    let risk_summary :=
      match env.gemini_summary product_name valid_ingredients overall_safety with
      | .ok s => s
      | .error _ =>
        "Product safety score: " ++ formatOneDecimal overall_safety
          ++ "/10. Manual review recommended."
    let gemini_alternatives :=
      match env.gemini_alternatives product_name with
      | .ok l => l
      | .error _ => []
    let db_alternatives :=
      match env.db_find_alternatives overall_safety product_name with
      | .ok l => l
      | .error _ => []
    let all_alternatives := gemini_alternatives ++ db_alternatives.take 2
    { product_name := product_name
      ingredients_analysis := ingredients_analysis
      overall_safety_score := pythonRound2 overall_safety
      risk_summary := risk_summary
      allergen_warnings := dedupFirstSeen allergen_warnings
      alternatives := all_alternatives }

/-- The body of `SkincareAnalyzer.analyze_product` after input validation
(analyzer.py:38–192).  All collaborator failures are absorbed: a database
lookup error counts as a cache miss, extraction absorbs transport failures
into an empty list, and the outer `except` never fires because every inner
call is already handled. -/
def analyze_product_body (env : Env) (product_name : String) : ProductAnalysis :=
  let cached_product : Option CachedProduct :=
    match env.db_get product_name with
    | .error _ => none
    | .ok c => c
  let ingredients_list : List String :=
    match cached_product with
    | some c => c.ingredients
    | none => extract_ingredients_from_product env product_name
  if ingredients_list = [] then
    create_fallback_analysis product_name "No ingredient data available for analysis"
  else
    let valid_ingredients := ingredients_list.filter (fun ing => is_valid_ingredient ing)
    if valid_ingredients = [] then
      create_fallback_analysis product_name "No valid ingredients found after filtering"
    else
      analyze_valid_ingredients env product_name valid_ingredients

/-- `SkincareAnalyzer.analyze_product` (analyzer.py:29).  The two `raise
ValueError` guards become `Except.error`; a non-string argument is outside
the typed embedding. -/
def analyze_product (env : Env) (product_name : String) : Except String ProductAnalysis :=
  if product_name = "" then .error "Product name must be a non-empty string"
  else
    let product_name := strTrim product_name
    if product_name.length < 2 then .error "Product name too short"
    else .ok (analyze_product_body env product_name)

/-! ## Concrete environments and documents used as witnesses -/

/-- An empty parsed document. -/
def emptySoup : Soup :=
  { product_links := [], ingredient_links := [], container_link_texts := []
    global_link_texts := [], list_items := [], text_blocks := []
    function_texts := [], description_texts := [], page_text := "", tables := [] }

/-- An environment in which every collaborator call fails. -/
def envAllFail : Env :=
  { fetch := fun _ => .error "network unavailable"
    db_get := fun _ => .error "database unavailable"
    gemini_summary := fun _ _ _ => .error "gemini unavailable"
    gemini_alternatives := fun _ => .error "gemini unavailable"
    db_find_alternatives := fun _ _ => .error "database unavailable" }

/-- An environment with an empty product cache and a dead transport. -/
def envNoData : Env :=
  { envAllFail with db_get := fun _ => .ok none }

/-- An environment whose product cache holds `"Hydra Cream"` with three
ingredients whose keyword-fallback scores are 0, 0 and 1, and whose transport
is dead; the narrative collaborator succeeds. -/
def envHydra : Env :=
  { fetch := fun _ => .error "network unavailable"
    db_get := fun name =>
      if name = "Hydra Cream" then .ok (some { ingredients := ["Water", "Aqua", "Glycerin"] })
      else .ok none
    gemini_summary := fun _ _ _ => .ok "Summary of the analysis"
    gemini_alternatives := fun _ => .ok []
    db_find_alternatives := fun _ _ => .ok [] }

/-- An environment whose product cache holds `"Water Cream"` with a single
ingredient and whose transport always fails. -/
def envWaterCream : Env :=
  { fetch := fun _ => .error "network unavailable"
    db_get := fun name =>
      if name = "Water Cream" then .ok (some { ingredients := ["Water"] })
      else .ok none
    gemini_summary := fun _ _ _ => .ok "Summary of the analysis"
    gemini_alternatives := fun _ => .ok []
    db_find_alternatives := fun _ _ => .ok [] }

/-- A product page on which the extraction strategies yield exactly two valid
candidates. -/
def soupTwoCandidates : Soup :=
  { emptySoup with container_link_texts := ["Glycerin", "Niacinamide"] }

/-- A product page on which method 1 already yields three valid candidates
(with one duplicate in the markup). -/
def soupThreeCandidates : Soup :=
  { emptySoup with container_link_texts := ["Aqua", "Glycerin", "Niacinamide", "Aqua"] }

/-- The shape of an analysis result that the fallback scenario constrains:
whether the per-ingredient list is empty, and the overall score. -/
def analysisShape (x : Except String ProductAnalysis) : Option (Bool × Rat) :=
  x.toOption.map (fun a => (a.ingredients_analysis.isEmpty, a.overall_safety_score))

/-! ## Specification-side definitions -/

/-- The overall tier of a raw table rating, as the spec's `RawRating` data
model enumerates it. -/
inductive OverallTier where
  | Superstar
  | Goodie
  | Icky
  | Unknown
deriving Repr, DecidableEq

/-- The tier label as it appears in scraped table cells. -/
def OverallTier.label : OverallTier → String
  | .Superstar => "Superstar"
  | .Goodie => "Goodie"
  | .Icky => "Icky"
  | .Unknown => "Unknown"

/-- The tier adjustment the claim specifies: Superstar −2, Goodie −1,
Icky +2, otherwise 0. -/
def OverallTier.adj : OverallTier → Int
  | .Superstar => -2
  | .Goodie => -1
  | .Icky => 2
  | .Unknown => 0

/-- The skin-type derivation as the amended claim states it: the
comedogenicity band picks a candidate set; irritancy ≥ 4 removes `sensitive`,
falling back to `normal` if the set becomes empty; irritancy ≥ 3 removes
`sensitive` and `all`, falling back to `normal` if the set becomes empty (the
expansion of `all` to normal/oily/combination never fires, since `all` was
just removed); irritancy 0 with comedogenicity 0 yields all+sensitive. -/
def spec_skin_types (comedogenicity irritancy : Int) : List String :=
  let base :=
    if comedogenicity ≥ 4 then ["dry"]
    else if comedogenicity ≥ 3 then ["normal", "dry"]
    else if comedogenicity ≥ 1 then ["normal", "combination"]
    else ["all"]
  if irritancy ≥ 4 then
    let f := base.filter (fun st => st ≠ "sensitive")
    if f = [] then ["normal"] else f
  else if irritancy ≥ 3 then
    let f := base.filter (fun st => ¬ (st = "sensitive" ∨ st = "all"))
    if f = [] then ["normal"] else f
  else if irritancy = 0 ∧ comedogenicity = 0 then ["all", "sensitive"]
  else base

/-- First-seen, validator-filtered deduplication of a candidate stream — the
spec's characterisation of the extraction chain's output ("deduplicated by
first occurrence, applying the relevant NameValidator at each candidate"). -/
def spec_first_seen_valid (candidates : List String) : List String :=
  candidates.foldl dedup_step []

/-- The cleaned candidates method 1 feeds to the accumulation step. -/
def stream1 (soup : Soup) : List String :=
  soup.container_link_texts.map (fun t => clean_ingredient_name (strTrim t))

/-- The cleaned candidates method 2 feeds (empty when method 1 already found
3 candidates). -/
def stream2 (soup : Soup) : List String :=
  if (phase1 soup).length < 3 then
    soup.global_link_texts.map (fun t => clean_ingredient_name (strTrim t))
  else []

/-- The cleaned candidates method 3 feeds: items of lists longer than 3,
in order (empty when the previous methods already found 3 candidates). -/
def stream3 (soup : Soup) : List String :=
  if (phase2 soup).length < 3 then
    (soup.list_items.map (fun items =>
      if 3 < items.length then items.map (fun t => clean_ingredient_name (strTrim t)) else [])).flatten
  else []

/-- The candidates method 4 feeds: parsed fragments of long comma-separated
text blocks (empty when the previous methods already found 3 candidates). -/
def stream4 (soup : Soup) : List String :=
  if (phase3 soup).length < 3 then
    (soup.text_blocks.map (fun block =>
      if 50 < (strTrim block).length ∧ strContainsChar (strTrim block) ',' then
        parse_ingredient_text_improved (strTrim block)
      else [])).flatten
  else []

/-- The full candidate stream the extraction chain processes, in processing
order. -/
def cleaned_candidates (soup : Soup) : List String :=
  stream1 soup ++ stream2 soup ++ stream3 soup ++ stream4 soup

/-! ## Helper lemmas -/

lemma ite_nil_normal (l : List String) : (if l = [] then ["normal"] else l) ≠ [] := by
  split
  next => simp
  next h => exact h

lemma skin_types_ne_nil (comedogenicity irritancy : Int) :
    get_skin_types_from_ratings comedogenicity irritancy ≠ [] := by
  unfold get_skin_types_from_ratings
  exact ite_nil_normal _

lemma foldl_dedup_step_nodup (l : List String) :
    ∀ acc : List String, acc.Nodup → (l.foldl dedup_step acc).Nodup := by
  induction l with
  | nil => intro acc h; exact h
  | cons x t ih =>
    intro acc h
    refine ih (dedup_step acc x) ?_
    unfold dedup_step
    split
    next hx => simp [List.nodup_append, h, hx.2]
    next => exact h

lemma add_link_candidates_eq (acc texts : List String) :
    add_link_candidates acc texts
      = (texts.map (fun t => clean_ingredient_name (strTrim t))).foldl dedup_step acc := by
  rw [List.foldl_map]
  rfl

lemma foldl_nested_dedup {β : Type} (h : β → List String) (L : List β) :
    ∀ acc : List String,
      L.foldl (fun a b => (h b).foldl dedup_step a) acc
        = ((L.map h).flatten).foldl dedup_step acc := by
  induction L with
  | nil => intro acc; rfl
  | cons b t ih =>
    intro acc
    simp only [List.map_cons, List.flatten_cons, List.foldl_append, List.foldl_cons]
    exact ih _

lemma phase1_eq (soup : Soup) : phase1 soup = spec_first_seen_valid (stream1 soup) := by
  unfold phase1 spec_first_seen_valid stream1
  exact add_link_candidates_eq [] _

lemma phase2_eq (soup : Soup) :
    phase2 soup = spec_first_seen_valid (stream1 soup ++ stream2 soup) := by
  unfold phase2 stream2
  by_cases h : (phase1 soup).length < 3
  · rw [if_pos h, if_pos h, add_link_candidates_eq, phase1_eq]
    unfold spec_first_seen_valid
    rw [List.foldl_append]
  · rw [if_neg h, if_neg h, List.append_nil, phase1_eq]

lemma phase3_eq (soup : Soup) :
    phase3 soup = spec_first_seen_valid (stream1 soup ++ stream2 soup ++ stream3 soup) := by
  unfold phase3 stream3
  by_cases h : (phase2 soup).length < 3
  · rw [if_pos h, if_pos h]
    have hstep : (fun (acc items : List String) =>
          if 3 < items.length then add_link_candidates acc items else acc)
        = fun a items =>
            (if 3 < items.length then items.map (fun t => clean_ingredient_name (strTrim t))
             else []).foldl dedup_step a := by
      funext a items
      by_cases h3 : 3 < items.length
      · simp only [if_pos h3]
        exact add_link_candidates_eq a items
      · simp only [if_neg h3]
        rfl
    rw [hstep,
      foldl_nested_dedup
        (fun items => if 3 < items.length then
          items.map (fun t => clean_ingredient_name (strTrim t)) else []) soup.list_items,
      phase2_eq]
    unfold spec_first_seen_valid
    simp only [List.foldl_append]
  · rw [if_neg h, if_neg h, List.append_nil, phase2_eq]

lemma collect_eq (soup : Soup) :
    collectIngredients soup = spec_first_seen_valid (cleaned_candidates soup) := by
  unfold collectIngredients cleaned_candidates stream4
  by_cases h : (phase3 soup).length < 3
  · rw [if_pos h, if_pos h]
    have hstep : (fun (acc : List String) (block : String) =>
          let text := strTrim block
          if 50 < text.length ∧ strContainsChar text ',' then
            (parse_ingredient_text_improved text).foldl dedup_step acc
          else acc)
        = fun a block =>
            (if 50 < (strTrim block).length ∧ strContainsChar (strTrim block) ',' then
              parse_ingredient_text_improved (strTrim block)
             else []).foldl dedup_step a := by
      funext a block
      by_cases h4 : 50 < (strTrim block).length ∧ strContainsChar (strTrim block) ','
      · simp only [if_pos h4]
      · simp only [if_neg h4]
        rfl
    rw [hstep,
      foldl_nested_dedup
        (fun block => if 50 < (strTrim block).length ∧ strContainsChar (strTrim block) ',' then
          parse_ingredient_text_improved (strTrim block) else []) soup.text_blocks,
      phase3_eq]
    unfold spec_first_seen_valid
    simp only [List.foldl_append]
  · rw [if_neg h, if_neg h, List.append_nil, phase3_eq]

/-! ## Claim theorems -/

/-- **C2.** For every irritancy and comedogenicity in 0–5, every overall tier
and every function string, the rating-to-safety-score conversion returns
exactly `clamp(base + adj, 0, 10)` where `base = max(irritancy*2,
comedogenicity*2)` and `adj` is −2 for a Superstar tier, −1 for Goodie,
+2 for Icky and 0 otherwise; the result is always an integer in `[0, 10]`. -/
theorem C2_rating_conversion (irritancy comedogenicity : Int)
    (h1 : 0 ≤ irritancy) (h2 : irritancy ≤ 5)
    (h3 : 0 ≤ comedogenicity) (h4 : comedogenicity ≤ 5)
    (t : OverallTier) (fn : String) :
    convert_incidecoder_to_safety_score irritancy comedogenicity t.label fn
      = max 0 (min 10 (max (irritancy * 2) (comedogenicity * 2) + t.adj)) ∧
    0 ≤ convert_incidecoder_to_safety_score irritancy comedogenicity t.label fn ∧
    convert_incidecoder_to_safety_score irritancy comedogenicity t.label fn ≤ 10 := by
  have hfn : convert_incidecoder_to_safety_score irritancy comedogenicity t.label fn
      = convert_incidecoder_to_safety_score irritancy comedogenicity t.label "" := rfl
  rw [hfn]
  cases t <;> interval_cases irritancy <;> interval_cases comedogenicity <;> decide

theorem C2_rating_conversion_witness :
    convert_incidecoder_to_safety_score 4 1 (OverallTier.label .Icky) ""
      = max 0 (min 10 (max (4 * 2) (1 * 2) + OverallTier.adj .Icky)) ∧
    0 ≤ convert_incidecoder_to_safety_score 4 1 (OverallTier.label .Icky) "" ∧
    convert_incidecoder_to_safety_score 4 1 (OverallTier.label .Icky) "" ≤ 10 :=
  C2_rating_conversion 4 1 (by decide) (by decide) (by decide) (by decide) .Icky ""

/-- **C3.** The derived risk level is the pure step function score ≤ 2 →
Safe, 3 ≤ score ≤ 4 → Medium, score ≥ 5 → High, and every ingredient record
produced by the three resolution tiers (ingredient-page extraction, keyword
fallback, session table cache) satisfies
`risk_level = get_risk_level_from_score safety_score`. -/
theorem C3_risk_level :
    (∀ score : Int,
      (score ≤ 2 → get_risk_level_from_score score = "Safe") ∧
      (3 ≤ score → score ≤ 4 → get_risk_level_from_score score = "Medium") ∧
      (5 ≤ score → get_risk_level_from_score score = "High")) ∧
    (∀ soup name, (extract_incidecoder_safety_data soup name).risk_level
      = get_risk_level_from_score (extract_incidecoder_safety_data soup name).safety_score) ∧
    (∀ name, (get_fallback_safety_score_dict name).risk_level
      = get_risk_level_from_score (get_fallback_safety_score_dict name).safety_score) ∧
    (∀ name e, (cache_entry_to_dict name e).risk_level
      = get_risk_level_from_score (cache_entry_to_dict name e).safety_score) := by
  refine ⟨?_, ?_, ?_, ?_⟩
  · intro score
    refine ⟨fun h => ?_, fun ha hb => ?_, fun h => ?_⟩ <;>
      · simp only [get_risk_level_from_score]
        split_ifs <;> first | rfl | omega
  · intro soup name
    rfl
  · intro name
    by_cases ha : get_fallback_safety_score name ≤ 2
    · simp [get_fallback_safety_score_dict, get_risk_level_from_score, ha]
    · by_cases hb : get_fallback_safety_score name ≤ 4 <;>
        simp [get_fallback_safety_score_dict, get_risk_level_from_score, ha, hb]
  · intro name e
    rfl

theorem C3_risk_level_witness :
    get_risk_level_from_score 2 = "Safe" ∧ get_risk_level_from_score 3 = "Medium" ∧
    get_risk_level_from_score 4 = "Medium" ∧ get_risk_level_from_score 5 = "High" :=
  ⟨(C3_risk_level.1 2).1 (by decide),
   (C3_risk_level.1 3).2.1 (by decide) (by decide),
   (C3_risk_level.1 4).2.1 (by decide) (by decide),
   (C3_risk_level.1 5).2.2 (by decide)⟩

/-- **C5 counterexample.** The claim says irritancy ≥ 3 "removes sensitive
and all and expands to {normal, oily, combination}"; but at irritancy 3 and
comedogenicity 0 the code returns `["normal"]` — the expansion is dead code,
because `"all"` has already been filtered out when it is tested for. -/
theorem C5_counterexample :
    get_skin_types_from_ratings 0 3 = ["normal"] ∧
    "oily" ∉ get_skin_types_from_ratings 0 3 := by
  exact ⟨by decide, by decide⟩

/-- **C5 (amended).** For every irritancy and comedogenicity pair in 0–5 the
derived skin-type set is: comedogenicity ≥ 4 → {dry}, ≥ 3 → {normal, dry},
≥ 1 → {normal, combination}, else {all}; then irritancy ≥ 4 removes
sensitive (falling back to {normal} if the set becomes empty), irritancy ≥ 3
removes sensitive and all, falling back to {normal} if the set becomes empty
(the expansion of all to {normal, oily, combination} never fires), and
irritancy = 0 with comedogenicity = 0 yields {all, sensitive}. -/
theorem C5_skin_type_bands (comedogenicity irritancy : Int)
    (h1 : 0 ≤ comedogenicity) (h2 : comedogenicity ≤ 5)
    (h3 : 0 ≤ irritancy) (h4 : irritancy ≤ 5) :
    get_skin_types_from_ratings comedogenicity irritancy
      = spec_skin_types comedogenicity irritancy := by
  interval_cases comedogenicity <;> interval_cases irritancy <;> decide

theorem C5_skin_type_bands_witness :
    get_skin_types_from_ratings 0 3 = spec_skin_types 0 3 :=
  C5_skin_type_bands 0 3 (by decide) (by decide) (by decide) (by decide)

/-- **C10.** Every resolution tier produces a record with a non-empty
`skin_types` list: the band derivation itself, the ingredient-page tier, the
keyword fallback tier, and the session-cache tier. -/
theorem C10_skin_types_nonempty :
    (∀ comedogenicity irritancy : Int,
      get_skin_types_from_ratings comedogenicity irritancy ≠ []) ∧
    (∀ soup name, (extract_incidecoder_safety_data soup name).skin_types ≠ []) ∧
    (∀ name, (get_fallback_safety_score_dict name).skin_types ≠ []) ∧
    (∀ name e, (cache_entry_to_dict name e).skin_types ≠ []) := by
  refine ⟨skin_types_ne_nil, ?_, ?_, ?_⟩
  · intro soup name
    simp only [extract_incidecoder_safety_data]
    split_ifs <;> simp
  · intro name
    by_cases ha : get_fallback_safety_score name ≤ 2
    · simp [get_fallback_safety_score_dict, ha]
    · by_cases hb : get_fallback_safety_score name ≤ 4 <;>
        simp [get_fallback_safety_score_dict, ha, hb]
  · intro name e
    exact skin_types_ne_nil e.comedogenicity e.irritancy

theorem C10_skin_types_nonempty_witness :
    get_skin_types_from_ratings 5 4 ≠ [] :=
  C10_skin_types_nonempty.1 5 4

/-- **C6 counterexample.** On a page whose strategies yield exactly two valid
candidates, the extractor does not return "the best available result": it
discards the two collected candidates and returns the empty list. -/
theorem C6_counterexample :
    collectIngredients soupTwoCandidates = ["Glycerin", "Niacinamide"] ∧
    extract_from_soup soupTwoCandidates = [] ∧
    (["Glycerin", "Niacinamide"] : List String) ≠ [] :=
  ⟨by decide, by decide, by decide⟩

/-- **C6 (amended).** Extraction never raises: it is a total function into
lists, and whenever every strategy yields 2 or fewer valid items in total,
the product-page extractor returns the empty list (discarding the partial
candidates), so the caller always receives a list. -/
theorem C6_extraction_degrades (soup : Soup)
    (h : (collectIngredients soup).length ≤ 2) :
    extract_from_soup soup = [] := by
  simp only [extract_from_soup]
  rw [if_neg (by omega)]

theorem C6_extraction_degrades_witness :
    (collectIngredients soupTwoCandidates).length ≤ 2 ∧
    extract_from_soup soupTwoCandidates = [] :=
  ⟨by decide, C6_extraction_degrades soupTwoCandidates (by decide)⟩

/-- **C7.** The extraction chain's output has no duplicates, has length at
most 20, and equals the take-20 prefix of the first-seen deduplication of the
validated candidate stream (preserving first-seen order); each later strategy
is invoked only if the prior strategies yielded fewer than 3 valid items. -/
theorem C7_extraction_chain (soup : Soup) :
    (extract_from_soup soup).Nodup ∧
    (extract_from_soup soup).length ≤ 20 ∧
    collectIngredients soup = spec_first_seen_valid (cleaned_candidates soup) ∧
    (3 ≤ (phase1 soup).length → collectIngredients soup = phase1 soup) ∧
    (3 ≤ (phase2 soup).length → collectIngredients soup = phase2 soup) ∧
    (3 ≤ (phase3 soup).length → collectIngredients soup = phase3 soup) := by
  have hnodup : (collectIngredients soup).Nodup := by
    rw [collect_eq]
    exact foldl_dedup_step_nodup _ [] List.nodup_nil
  refine ⟨?_, ?_, collect_eq soup, ?_, ?_, ?_⟩
  · simp only [extract_from_soup]
    split
    · exact (List.take_sublist _ _).nodup hnodup
    · exact List.nodup_nil
  · simp only [extract_from_soup]
    split
    · exact List.length_take_le _ _
    · simp
  · intro h
    have h1 : ¬ (phase1 soup).length < 3 := by omega
    have e2 : phase2 soup = phase1 soup := by unfold phase2; rw [if_neg h1]
    have e3 : phase3 soup = phase1 soup := by unfold phase3; rw [e2, if_neg h1]
    unfold collectIngredients
    rw [e3, if_neg h1]
  · intro h
    have h2 : ¬ (phase2 soup).length < 3 := by omega
    have e3 : phase3 soup = phase2 soup := by unfold phase3; rw [if_neg h2]
    unfold collectIngredients
    rw [e3, if_neg h2]
  · intro h
    have h3 : ¬ (phase3 soup).length < 3 := by omega
    unfold collectIngredients
    rw [if_neg h3]

theorem C7_extraction_chain_witness :
    (extract_from_soup soupThreeCandidates).Nodup ∧
    (extract_from_soup soupThreeCandidates).length ≤ 20 ∧
    collectIngredients soupThreeCandidates = phase1 soupThreeCandidates :=
  ⟨(C7_extraction_chain soupThreeCandidates).1,
   (C7_extraction_chain soupThreeCandidates).2.1,
   (C7_extraction_chain soupThreeCandidates).2.2.2.1 (by decide)⟩

/-- **C8.** Every string the orchestrator-level validator accepts has length
in [3, 80], balanced parenthesis and bracket counts, and an
alphanumeric-character fraction of at least 0.4. -/
theorem C8_validator_invariants (s : String) (h : is_valid_ingredient s = true) :
    (3 ≤ s.length ∧ s.length ≤ 80) ∧
    countChar s '(' = countChar s ')' ∧
    countChar s '[' = countChar s ']' ∧
    2 * s.length ≤ 5 * alnumCount s ∧
    (2 : Rat) / 5 ≤ (alnumCount s : Rat) / (s.length : Rat) := by
  simp only [is_valid_ingredient] at h
  split_ifs at h with h0 hp hsent hlen hpar hbr hal hstart hend
  have hlen3 : 3 ≤ s.length ∧ s.length ≤ 80 := by omega
  have hnat : 2 * s.length ≤ 5 * alnumCount s := by omega
  refine ⟨hlen3, hpar, hbr, hnat, ?_⟩
  have hq : (2 : Rat) * (s.length : Rat) ≤ 5 * (alnumCount s : Rat) := by exact_mod_cast hnat
  have hpos : (0 : Rat) < (s.length : Rat) := by
    exact_mod_cast (show 0 < s.length by omega)
  rw [div_le_div_iff₀ (by norm_num) hpos]
  linarith

theorem C8_validator_invariants_witness :
    is_valid_ingredient "Glycerin" = true ∧
    ((3 ≤ "Glycerin".length ∧ "Glycerin".length ≤ 80) ∧
     countChar "Glycerin" '(' = countChar "Glycerin" ')' ∧
     countChar "Glycerin" '[' = countChar "Glycerin" ']' ∧
     2 * "Glycerin".length ≤ 5 * alnumCount "Glycerin" ∧
     (2 : Rat) / 5 ≤ (alnumCount "Glycerin" : Rat) / ("Glycerin".length : Rat)) :=
  ⟨by decide, C8_validator_invariants "Glycerin" (by decide)⟩

/-- **C9.** For every malformed product name — empty, or of trimmed length
less than 2 — `analyze_product` raises an input error to the caller instead
of returning a Fallback analysis (a non-string argument is outside the typed
embedding). -/
theorem C9_input_validation (env : Env) (product_name : String)
    (h : product_name = "" ∨ (strTrim product_name).length < 2) :
    ∃ e, analyze_product env product_name = Except.error e := by
  rcases h with h | h
  · refine ⟨"Product name must be a non-empty string", ?_⟩
    simp [analyze_product, h]
  · by_cases h0 : product_name = ""
    · refine ⟨"Product name must be a non-empty string", ?_⟩
      simp [analyze_product, h0]
    · refine ⟨"Product name too short", ?_⟩
      simp [analyze_product, h0, h]

theorem C9_input_validation_witness :
    ((strTrim "A").length < 2) ∧ ∃ e, analyze_product envAllFail "A" = Except.error e :=
  ⟨by decide, C9_input_validation envAllFail "A" (Or.inr (by decide))⟩

/-- **C1 counterexample.** "When every transport call fails or returns
non-200, analyze_product returns a Fallback analysis": false when the
product cache hits.  With a dead transport but a cached ingredient list, the
cascade returns a fully resolved analysis — a non-empty per-ingredient list
and overall score 0 — not the Fallback shape (empty list, score 5). -/
theorem C1_counterexample :
    envWaterCream.fetch = (fun _ => Except.error "network unavailable") ∧
    analysisShape (analyze_product envWaterCream "Water Cream") = some (false, 0) ∧
    (some ((false : Bool), (0 : Rat)) ≠ some ((true : Bool), (5 : Rat))) :=
  ⟨rfl, by decide, by decide⟩

/-- **C1 (amended).** For every well-formed product name (non-empty, trimmed
length ≥ 2) `analyze_product` never raises; and when additionally the product
cache has no entry for the name (or errors) and every transport call fails or
returns non-200, it returns the Fallback analysis: empty
`ingredients_analysis`, `overall_safety_score` 5.0, a non-empty
`risk_summary` containing the failure reason, no allergen warnings and no
alternatives. -/
theorem C1_cascade_fallback (env : Env) (product_name : String)
    (h1 : product_name ≠ "") (h2 : 2 ≤ (strTrim product_name).length) :
    (∃ a, analyze_product env product_name = Except.ok a) ∧
    ((env.db_get (strTrim product_name) = Except.ok none ∨
        (∃ e, env.db_get (strTrim product_name) = Except.error e)) →
      (∀ url r, env.fetch url = Except.ok r → r.status ≠ 200) →
      (analyze_product env product_name
          = Except.ok (create_fallback_analysis (strTrim product_name)
              "No ingredient data available for analysis") ∧
        (create_fallback_analysis (strTrim product_name)
            "No ingredient data available for analysis").ingredients_analysis = [] ∧
        (create_fallback_analysis (strTrim product_name)
            "No ingredient data available for analysis").overall_safety_score = 5 ∧
        (create_fallback_analysis (strTrim product_name)
            "No ingredient data available for analysis").risk_summary ≠ "" ∧
        strContains (create_fallback_analysis (strTrim product_name)
            "No ingredient data available for analysis").risk_summary
          "No ingredient data available for analysis" = true ∧
        (create_fallback_analysis (strTrim product_name)
            "No ingredient data available for analysis").allergen_warnings = [] ∧
        (create_fallback_analysis (strTrim product_name)
            "No ingredient data available for analysis").alternatives = [])) := by
  have hok : analyze_product env product_name
      = Except.ok (analyze_product_body env (strTrim product_name)) := by
    simp only [analyze_product]
    rw [if_neg h1, if_neg (by omega)]
  constructor
  · exact ⟨_, hok⟩
  · intro hdb hfetch
    have hextract : extract_ingredients_from_product env (strTrim product_name) = [] := by
      unfold extract_ingredients_from_product scrape_incidecoder
      cases hf : env.fetch (search_url (strTrim product_name)) with
      | error e => simp [hf]
      | ok r =>
        have hr := hfetch _ r hf
        simp [hf, hr]
    have hbody : analyze_product_body env (strTrim product_name)
        = create_fallback_analysis (strTrim product_name)
            "No ingredient data available for analysis" := by
      unfold analyze_product_body
      rcases hdb with hdb | ⟨e, hdb⟩ <;> rw [hdb] <;> simp [hextract]
    refine ⟨hok.trans (congrArg Except.ok hbody), rfl, rfl, ?_, ?_, rfl, rfl⟩
    · show ("Unable to complete analysis: No ingredient data available for analysis" : String) ≠ ""
      decide
    · show strContains "Unable to complete analysis: No ingredient data available for analysis"
        "No ingredient data available for analysis" = true
      decide

theorem C1_cascade_fallback_witness :
    analyze_product envNoData "Test Product"
      = Except.ok (create_fallback_analysis "Test Product"
          "No ingredient data available for analysis") := by
  have hfetch : ∀ url r, envNoData.fetch url = Except.ok r → r.status ≠ 200 := by
    intro url r hr
    simp [envNoData, envAllFail] at hr
  have h := (C1_cascade_fallback envNoData "Test Product" (by decide) (by decide)).2
    (Or.inl rfl) hfetch
  exact h.1

/-- **C4 counterexample.** With three resolved ingredients scoring 0, 0 and
1 the arithmetic mean is 1/3, but the analysis's `overall_safety_score` is
the two-decimal rounding 0.33 — not the arithmetic mean. -/
theorem C4_counterexample :
    (analyze_product envHydra "Hydra Cream").toOption.map
        (fun a => (a.ingredients_analysis.map Ingredient.safety_score, a.overall_safety_score))
      = some ([0, 0, 1], mkRat 33 100) ∧
    mkRat 33 100 ≠ ratSumInt [0, 0, 1] / ((3 : Nat) : Rat) := by
  constructor
  · decide
  · have h1 : ratSumInt [0, 0, 1] = 1 := by norm_num [ratSumInt]
    rw [h1, Rat.mkRat_eq_divInt, Rat.divInt_eq_div]
    norm_num

lemma analyze_valid_shape (env : Env) (pn : String) (valid : List String) :
    ((analyze_valid_ingredients env pn valid).ingredients_analysis = [] →
      (analyze_valid_ingredients env pn valid).overall_safety_score = 5) ∧
    ((analyze_valid_ingredients env pn valid).ingredients_analysis ≠ [] →
      (analyze_valid_ingredients env pn valid).overall_safety_score
        = pythonRound2 (ratSumInt
              ((analyze_valid_ingredients env pn valid).ingredients_analysis.map
                Ingredient.safety_score)
            / ((analyze_valid_ingredients env pn valid).ingredients_analysis.length : Rat))) := by
  simp only [analyze_valid_ingredients]
  set R := valid.map (fun ing => (ing, get_comprehensive_ingredient_data env [] ing)) with hR
  by_cases hia : R.map (fun r => mk_ingredient r.1 r.2) = []
  · simp only [if_pos hia]
    exact ⟨fun _ => rfl, fun hne => absurd rfl hne⟩
  · simp only [if_neg hia]
    constructor
    · intro h0
      exact absurd h0 hia
    · intro hne
      have hRne : R ≠ [] := by
        intro h0
        apply hia
        rw [h0]
        rfl
      have hS : R.map (fun r => r.2.safety_score) ≠ [] := by
        intro h0
        apply hRne
        simpa using h0
      show pythonRound2 (if R.map (fun r => r.2.safety_score) ≠ [] then
          mkRat ((R.map (fun r => r.2.safety_score)).foldl (· + ·) 0)
            (R.map (fun r => r.2.safety_score)).length
        else 5) = _
      rw [if_pos hS]
      have hmapeq : (R.map (fun r => mk_ingredient r.1 r.2)).map Ingredient.safety_score
          = R.map (fun r => r.2.safety_score) := by
        rw [List.map_map]
        rfl
      show _ = pythonRound2 (ratSumInt ((R.map (fun r => mk_ingredient r.1 r.2)).map
          Ingredient.safety_score) / ((R.map (fun r => mk_ingredient r.1 r.2)).length : Rat))
      rw [hmapeq]
      simp only [List.length_map]
      rw [Rat.mkRat_eq_divInt, Rat.divInt_eq_div]
      norm_num [ratSumInt]

lemma body_shape (env : Env) (pn : String) :
    ((analyze_product_body env pn).ingredients_analysis = [] →
      (analyze_product_body env pn).overall_safety_score = 5) ∧
    ((analyze_product_body env pn).ingredients_analysis ≠ [] →
      (analyze_product_body env pn).overall_safety_score
        = pythonRound2 (ratSumInt ((analyze_product_body env pn).ingredients_analysis.map
              Ingredient.safety_score)
            / ((analyze_product_body env pn).ingredients_analysis.length : Rat))) := by
  simp only [analyze_product_body]
  split_ifs with hL hV
  · exact ⟨fun _ => rfl, fun hne => absurd rfl hne⟩
  · exact ⟨fun _ => rfl, fun hne => absurd rfl hne⟩
  · exact analyze_valid_shape env pn _

/-- **C4 (amended).** When at least one ingredient resolves, the analysis's
`overall_safety_score` equals the arithmetic mean of the resolved
per-ingredient safety scores rounded to two decimal places (Python
`round(mean, 2)`), and it equals 5.0 when the resolved ingredient list is
empty (the fallback case). -/
theorem C4_overall_score (env : Env) (product_name : String) (a : ProductAnalysis)
    (h : analyze_product env product_name = Except.ok a) :
    (a.ingredients_analysis = [] → a.overall_safety_score = 5) ∧
    (a.ingredients_analysis ≠ [] →
      a.overall_safety_score
        = pythonRound2 (ratSumInt (a.ingredients_analysis.map Ingredient.safety_score)
            / (a.ingredients_analysis.length : Rat))) := by
  simp only [analyze_product] at h
  split_ifs at h
  rw [Except.ok.injEq] at h
  subst h
  exact body_shape env (strTrim product_name)

theorem C4_overall_score_witness :
    (analyze_product_body envHydra "Hydra Cream").overall_safety_score
      = pythonRound2 (ratSumInt
            ((analyze_product_body envHydra "Hydra Cream").ingredients_analysis.map
              Ingredient.safety_score)
          / ((analyze_product_body envHydra "Hydra Cream").ingredients_analysis.length : Rat)) :=
  (C4_overall_score envHydra "Hydra Cream" (analyze_product_body envHydra "Hydra Cream") rfl).2
    (by decide)
